import Mathlib

/-!
Shallow embedding of the response-shaping pipeline of the spruthub-mcp-server
source (`src/index.js`): the accessory filter chain (`applyAccessoryFilters`),
the smart-defaults advisor (`getSmartDefaults`), the pagination arithmetic of
`handleListAccessories`, and the size guard (`checkResponseSize`,
`truncateResponse`, `processResponse`).

JavaScript values are modelled as follows: possibly-`undefined` fields become
`Option`; JS numbers that the code uses as integers become `Int`/`Nat`;
strings become Lean `String` (one JS UTF-16 unit ≈ one code point for the
ASCII data handled here); JS array methods map to their `List` counterparts.
`Math.ceil` on real division is modelled by `Int.ceil` on `ℚ`.
-/

namespace Spruthub

/-! ## String helpers (models of JS string methods) -/

/-- Model of `String.prototype.toLowerCase` (ASCII case mapping). -/
def strLower (s : String) : String :=
  String.mk (s.toList.map Char.toLower)

/-- Model of `String.prototype.substring(0, n)`. -/
def strTake (s : String) (n : Nat) : String :=
  String.mk (s.toList.take n)

/-- Helper for `strContains`: does `pat` occur as a contiguous run in `s`? -/
def listHasInfix (pat : List Char) : List Char → Bool
  | [] => pat.isEmpty
  | c :: rest => pat.isPrefixOf (c :: rest) || listHasInfix pat rest

/-- Model of `s.includes(pat)`. -/
def strContains (s pat : String) : Bool :=
  listHasInfix pat.toList s.toList

/-- Model of `s.startsWith(pat)`; used only to state properties. -/
def strStartsWith (s pat : String) : Bool :=
  pat.toList.isPrefixOf s.toList

/-! ## Data model (spec §3, as consumed by `src/index.js`) -/

/-- `control` object of a characteristic; `control.write === true` marks it
controllable. -/
structure Control where
  write : Bool
deriving DecidableEq

/-- A characteristic. The `value` payload is never inspected by the filtering
or shaping code, so it is omitted from the embedding. -/
structure Characteristic where
  type : Option String
  control : Option Control
deriving DecidableEq

/-- A service; the code defensively checks that `characteristics` is present,
so it is an `Option`. -/
structure Service where
  type : Option String
  characteristics : Option (List Characteristic)
deriving DecidableEq

/-- An accessory as consumed by the filter chain. -/
structure Accessory where
  id : Int
  name : Option String
  manufacturer : Option String
  model : Option String
  online : Bool
  roomId : Option Int
  services : Option (List Service)
deriving DecidableEq

/-- The caller-supplied filter spec (all fields optional; `none` = JS
`undefined`). -/
structure FilterSpec where
  roomId : Option Int := none
  controllableOnly : Bool := false
  nameFilter : Option String := none
  deviceTypeFilter : Option String := none
  manufacturerFilter : Option String := none
  modelFilter : Option String := none
  onlineOnly : Bool := false
  offlineOnly : Bool := false
deriving DecidableEq

/-- The `this.tokenLimits` configuration object.  The startup parsing
(`parseInt(env) || default`) guarantees the numeric fields are positive. -/
structure TokenLimits where
  maxResponseSize : Nat
  maxDevicesPerPage : Nat
  warnThreshold : Nat
  enableTruncation : Bool
  forceSmartDefaults : Bool
  autoSummaryThreshold : Nat
deriving DecidableEq

/-! ## Collaborator lookups (spruthub-client, out of scope of src/) -/

/-- Modelled from the spec: the transport collaborator's room-membership
lookup `getDevicesByRoom` (spec §4.1 step 1, "keep only accessories whose
`roomId` equals the given value"); the spruthub-client package itself is not
part of the repository. -/
def getDevicesByRoom (l : List Accessory) (roomId : Int) : List Accessory :=
  l.filter (fun a => a.roomId == some roomId)

/-- Does the accessory have at least one characteristic with
`control.write === true`?  (Same shape as the `controllable` projection in
`handleListAccessories`.) -/
def hasControllableCharacteristic (acc : Accessory) : Bool :=
  match acc.services with
  | none => false
  | some svcs => svcs.any (fun s =>
      match s.characteristics with
      | none => false
      | some cs => cs.any (fun c =>
          match c.control with
          | none => false
          | some ctl => ctl.write))

/-- An entry of the collaborator's controllable-characteristics listing; only
the `accessoryId` field is consumed by the filter chain. -/
structure ControllableChar where
  accessoryId : Int
deriving DecidableEq

/-- Modelled from the spec: the transport collaborator's
`getControllableCharacteristics` (spec §4.1 step 2, "compute the set of
accessory IDs that have at least one characteristic with
`control.write === true`"); the spruthub-client package itself is not part of
the repository. -/
def getControllableCharacteristics (l : List Accessory) : List ControllableChar :=
  l.filterMap (fun a =>
    if hasControllableCharacteristic a then some ⟨a.id⟩ else none)

/-! ## FilterEngine (`applyAccessoryFilters`, src/index.js lines 540-650) -/

/-- The static capability map (`typeMap` constant inside
`applyAccessoryFilters`). -/
def typeMap : List (String × List String) :=
  [("air_quality", ["airqualitysensor", "airquality"]),
   ("temperature", ["temperature", "currenttemperature"]),
   ("humidity", ["humidity", "currentrelativehumidity"]),
   ("co2", ["carbondioxide", "co2"]),
   ("pm25", ["pm2_5density", "pm25"]),
   ("pm10", ["pm10density", "pm10"]),
   ("voc", ["vocdensity", "voc"]),
   ("light", ["brightness", "hue", "saturation", "on"]),
   ("switch", ["on", "switch"]),
   ("motion", ["motiondetected", "motion"]),
   ("contact", ["contactsensorstate", "contact"])]

/-- The per-characteristic test of the device-type filter: `typeSearch` is the
lowercased filter token, `ct` the characteristic's `type`. -/
def charTypeMatches (typeSearch : String) (ct : String) : Bool :=
  let charType := strLower ct
  match typeMap.lookup typeSearch with
  | some mapped => mapped.any (fun m => strContains charType (strLower m))
  | none => strContains charType typeSearch

/-- The per-service test of the device-type filter (`acc.services.some(...)`
body). -/
def serviceMatchesType (typeSearch : String) (s : Service) : Bool :=
  (match s.type with
   | some st => if st = "" then false else strContains (strLower st) typeSearch
   | none => false)
  ||
  (match s.characteristics with
   | some cs => cs.any (fun c =>
       match c.type with
       | some ct => if ct = "" then false else charTypeMatches typeSearch ct
       | none => false)
   | none => false)

/-- The per-accessory predicate of the device-type filter. -/
def deviceTypeMatches (typeSearch : String) (acc : Accessory) : Bool :=
  match acc.services with
  | none => false
  | some svcs => svcs.any (serviceMatchesType typeSearch)

/-- Room filter stage (`if (roomId !== undefined)`). -/
def roomStage (roomId : Option Int) (l : List Accessory) : List Accessory :=
  match roomId with
  | some r => getDevicesByRoom l r
  | none => l

/-- Controllable filter stage (`if (controllableOnly)`): collect the ids of
the controllable characteristics of the current list and keep the accessories
whose id is among them. -/
def controllableStage (controllableOnly : Bool) (l : List Accessory) : List Accessory :=
  if controllableOnly then
    let controllableIds := (getControllableCharacteristics l).map (fun c => c.accessoryId)
    l.filter (fun acc => controllableIds.contains acc.id)
  else l

/-- Name filter stage (`if (nameFilter)`; the empty string is falsy in JS). -/
def nameStage (nameFilter : Option String) (l : List Accessory) : List Accessory :=
  match nameFilter with
  | some nf =>
    if nf = "" then l else
      let nameSearch := strLower nf
      l.filter (fun acc =>
        match acc.name with
        | some nm => if nm = "" then false else strContains (strLower nm) nameSearch
        | none => false)
  | none => l

/-- Device-type filter stage (`if (deviceTypeFilter)`). -/
def deviceTypeStage (deviceTypeFilter : Option String) (l : List Accessory) : List Accessory :=
  match deviceTypeFilter with
  | some dtf =>
    if dtf = "" then l else l.filter (deviceTypeMatches (strLower dtf))
  | none => l

/-- Manufacturer filter stage (`if (manufacturerFilter)`). -/
def manufacturerStage (manufacturerFilter : Option String) (l : List Accessory) : List Accessory :=
  match manufacturerFilter with
  | some mf =>
    if mf = "" then l else
      let mfgSearch := strLower mf
      l.filter (fun acc =>
        match acc.manufacturer with
        | some m => if m = "" then false else strContains (strLower m) mfgSearch
        | none => false)
  | none => l

/-- Model filter stage (`if (modelFilter)`). -/
def modelStage (modelFilter : Option String) (l : List Accessory) : List Accessory :=
  match modelFilter with
  | some mf =>
    if mf = "" then l else
      let modelSearch := strLower mf
      l.filter (fun acc =>
        match acc.model with
        | some m => if m = "" then false else strContains (strLower m) modelSearch
        | none => false)
  | none => l

/-- Online/offline filter stage (`if (onlineOnly) ... else if (offlineOnly)`). -/
def onlineStage (onlineOnly offlineOnly : Bool) (l : List Accessory) : List Accessory :=
  if onlineOnly then l.filter (fun acc => acc.online == true)
  else if offlineOnly then l.filter (fun acc => acc.online == false)
  else l

/-- `applyAccessoryFilters(accessories, filters)`: the fixed chain of filter
stages, in source order. -/
def applyAccessoryFilters (accessories : List Accessory) (filters : FilterSpec) : List Accessory :=
  onlineStage filters.onlineOnly filters.offlineOnly
    (modelStage filters.modelFilter
      (manufacturerStage filters.manufacturerFilter
        (deviceTypeStage filters.deviceTypeFilter
          (nameStage filters.nameFilter
            (controllableStage filters.controllableOnly
              (roomStage filters.roomId accessories))))))

/-! ## SmartDefaultsAdvisor (`getSmartDefaults`, src/index.js lines 673-697) -/

/-- The display/pagination parameters that `getSmartDefaults` reads and
writes on the request object (`none` = JS `undefined`). -/
structure RequestedParams where
  summary : Option Bool := none
  limit : Option Int := none
  metaOnly : Option Bool := none
deriving DecidableEq

/-- JS truthiness of `defaults.limit` (`undefined` and `0` are falsy). -/
def limitTruthy : Option Int → Bool
  | none => false
  | some v => !(v == 0)

/-- JS `defaults.limit > 10` (`undefined > 10` is false). -/
def limitAboveTen : Option Int → Bool
  | none => false
  | some v => decide (v > 10)

/-- JS `defaults.limit || 10`. -/
def limitOrTen : Option Int → Int
  | none => 10
  | some v => if v == 0 then 10 else v

/-- `getSmartDefaults(totalCount, requestedParams)`: copy the request and,
when smart defaults are enabled, fill `summary`, `limit`, `metaOnly`
according to the size thresholds. -/
def getSmartDefaults (cfg : TokenLimits) (totalCount : Nat)
    (requestedParams : RequestedParams) : RequestedParams :=
  let defaults := requestedParams
  if cfg.forceSmartDefaults then
    let defaults :=
      if totalCount > cfg.autoSummaryThreshold && defaults.summary == none then
        { defaults with summary := some true }
      else defaults
    let defaults :=
      if totalCount > 50 && (!(limitTruthy defaults.limit) || limitAboveTen defaults.limit) then
        { defaults with limit := some (min (limitOrTen defaults.limit) 10) }
      else defaults
    let defaults :=
      if totalCount > 100 && defaults.metaOnly == none then
        { defaults with metaOnly := some true }
      else defaults
    defaults
  else defaults

/-! ## SizeGuard (`checkResponseSize` / `truncateResponse` /
`processResponse`, src/index.js lines 699-754) -/

/-- One MCP content block (`{ type: 'text', text: ... }`). -/
structure Block where
  type : String
  text : String
deriving DecidableEq

/-- Model of the escaping performed by `JSON.stringify` on one character
(restricted to the escape classes that occur in this pipeline's strings). -/
def jsonEscapeChar (c : Char) : List Char :=
  if c = '"' then ['\\', '"']
  else if c = '\\' then ['\\', '\\']
  else if c = '\n' then ['\\', 'n']
  else if c = '\t' then ['\\', 't']
  else if c = '\r' then ['\\', 'r']
  else [c]

/-- Escape every character of a string body. -/
def jsonEscape (l : List Char) : List Char :=
  l.flatMap jsonEscapeChar

/-- Model of `JSON.stringify` on a string. -/
def jsonQuote (s : String) : String :=
  String.mk ('"' :: jsonEscape s.toList ++ ['"'])

/-- Model of `JSON.stringify` on one content block (insertion order of the
keys is `type`, then `text`). -/
def jsonBlock (b : Block) : String :=
  "\x7b\"type\":" ++ jsonQuote b.type ++ ",\"text\":" ++ jsonQuote b.text ++ "\x7d"

/-- Comma-join of the serialized array elements. -/
def jsonJoin : List String → String
  | [] => ""
  | [s] => s
  | s :: rest => s ++ ("," ++ jsonJoin rest)

/-- Model of `JSON.stringify(content)` for a content array. -/
def jsonStringifyContent (content : List Block) : String :=
  "[" ++ jsonJoin (content.map jsonBlock) ++ "]"

/-- `checkResponseSize(content)` returns `{ size, responseText }`; the
threshold warning is a log-only side effect. -/
def checkResponseSize (content : List Block) : Nat × String :=
  let responseText := jsonStringifyContent content
  (responseText.length, responseText)

/-- The truncation banner prepended by `truncateResponse`. -/
def truncationBanner (originalSize maxResponseSize : Nat) : String :=
  "⚠️  RESPONSE TRUNCATED (" ++ toString originalSize ++ " chars > "
    ++ toString maxResponseSize ++ " limit)"

/-- The fixed marker appended to each hard-truncated text block. -/
def truncationMarker : String :=
  "\n... [TRUNCATED - Use pagination or summary mode for full data]"

/-- `truncateResponse(content, originalSize)`. -/
def truncateResponse (cfg : TokenLimits) (content : List Block)
    (originalSize : Nat) : List Block :=
  if !cfg.enableTruncation || originalSize ≤ cfg.maxResponseSize then content
  else
    let truncatedContent :=
      match content with
      | [] => [⟨"text", truncationBanner originalSize cfg.maxResponseSize⟩]
      | first :: rest =>
        if first.type = "text" then
          ⟨first.type, truncationBanner originalSize cfg.maxResponseSize ++ "\n" ++ first.text⟩ :: rest
        else
          ⟨"text", truncationBanner originalSize cfg.maxResponseSize⟩ :: first :: rest
    let totalSize := (jsonStringifyContent truncatedContent).length
    if totalSize > cfg.maxResponseSize then
      truncatedContent.map (fun item =>
        if item.type = "text" then
          let maxTextLength : Int := ((cfg.maxResponseSize / truncatedContent.length : Nat) : Int) - 200
          if (item.text.length : Int) > maxTextLength ∧ maxTextLength > 100 then
            ⟨item.type, strTake item.text maxTextLength.toNat ++ truncationMarker⟩
          else item
        else item)
    else truncatedContent

/-- `processResponse(content)`. -/
def processResponse (cfg : TokenLimits) (content : List Block) : List Block :=
  let size := (checkResponseSize content).1
  if size > cfg.maxResponseSize then
    truncateResponse cfg content size
  else content

/-! ## Paginator (pagination arithmetic of `handleListAccessories`,
src/index.js lines 940-953 and 1017-1028) -/

/-- The pagination data computed by `handleListAccessories`. -/
structure PageResult (α : Type) where
  items : List α
  pageNum : Int
  pageSize : Int
  totalPages : Nat
  hasMore : Bool
deriving DecidableEq

/-- The pagination arithmetic of `handleListAccessories`:
`pageNum = Math.max(1, parseInt(page))`,
`pageSize = Math.min(maxDevicesPerPage, Math.max(1, parseInt(limit)))`,
`totalPages = Math.ceil(totalCount / pageSize)`,
slice bounds `[(pageNum-1)*pageSize, (pageNum-1)*pageSize + pageSize)`,
`hasMore = pageNum < totalPages`.  `page` and `limit` are modelled as
integers; on every real `x`, `Math.max(1, parseInt(x))` agrees with
`max 1 ⌊x⌋`, so nothing is lost by the integral model.  `Math.ceil` of the
real quotient is written as the natural ceiling division
`(totalCount + pageSize - 1) / pageSize`; the theorem `totalPages_eq_ceil`
below proves the two agree whenever `pageSize ≥ 1` (which the clamp
guarantees for every configured `maxDevicesPerPage ≥ 1`). -/
def paginate {α : Type} (items : List α) (page limit : Int)
    (maxDevicesPerPage : Nat) : PageResult α :=
  let pageNum : Int := max 1 page
  let pageSize : Int := min (maxDevicesPerPage : Int) (max 1 limit)
  let totalCount : Nat := items.length
  let totalPages : Nat := (totalCount + pageSize.toNat - 1) / pageSize.toNat
  let startIndex : Int := (pageNum - 1) * pageSize
  { items := (items.drop startIndex.toNat).take pageSize.toNat,
    pageNum := pageNum,
    pageSize := pageSize,
    totalPages := totalPages,
    hasMore := decide (pageNum < (totalPages : Int)) }

/-- The natural ceiling division used in `paginate` agrees with `Math.ceil`
of the exact rational quotient whenever the divisor is positive. -/
theorem totalPages_eq_ceil (n s : Nat) (hs : 1 ≤ s) :
    (((n + s - 1) / s : Nat) : ℤ) = ⌈(n : ℚ) / (s : ℚ)⌉ := by
  have hs0 : (0 : ℚ) < (s : ℚ) := by exact_mod_cast hs
  have hmod := Nat.div_add_mod (n + s - 1) s
  have hmlt : (n + s - 1) % s < s := Nat.mod_lt _ (by omega)
  set q := (n + s - 1) / s with hq
  have h1 : n ≤ s * q := by omega
  have h2 : s * q < n + s := by omega
  have hle : ⌈(n : ℚ) / (s : ℚ)⌉ ≤ (q : ℤ) := by
    rw [Int.ceil_le, div_le_iff₀ hs0]
    have h1q : (n : ℚ) ≤ (s : ℚ) * (q : ℚ) := by exact_mod_cast h1
    push_cast
    linarith
  have hge : (q : ℤ) ≤ ⌈(n : ℚ) / (s : ℚ)⌉ := by
    have hlt : (q : ℤ) - 1 < ⌈(n : ℚ) / (s : ℚ)⌉ := by
      rw [Int.lt_ceil, lt_div_iff₀ hs0]
      have h2q : (s : ℚ) * (q : ℚ) < (n : ℚ) + (s : ℚ) := by exact_mod_cast h2
      push_cast
      linarith
    omega
  omega

/-- Concatenating the `s`-sized chunks `0, ..., ⌈length/s⌉ - 1` of a list
reassembles the list. -/
theorem flatMap_range_chunks {α : Type} (s : Nat) (hs : 0 < s) :
    ∀ (p : Nat) (l : List α), (l.length + s - 1) / s = p →
      (List.range p).flatMap (fun k => (l.drop (k * s)).take s) = l := by
  intro p
  induction p with
  | zero =>
    intro l h
    have hlen : l.length = 0 := by
      by_contra hc
      have hge : s ≤ l.length + s - 1 := by omega
      have : 1 ≤ (l.length + s - 1) / s := (Nat.one_le_div_iff hs).mpr hge
      omega
    have : l = [] := List.length_eq_zero.mp hlen
    subst this
    simp
  | succ p ih =>
    intro l h
    have hlen : 1 ≤ l.length := by
      by_contra hc
      have h0 : l.length = 0 := by omega
      rw [h0] at h
      have : (0 + s - 1) / s = 0 := Nat.div_eq_of_lt (by omega)
      omega
    have harg : ((l.drop s).length + s - 1) / s = p := by
      rw [List.length_drop]
      rcases Nat.le_total l.length s with hle | hge
      · have h0 : l.length - s = 0 := by omega
        rw [h0]
        have hone : (l.length + s - 1) / s = 1 :=
          Nat.div_eq_of_lt_le (by omega) (by omega)
        have hp : p = 0 := by omega
        rw [hp]
        exact Nat.div_eq_of_lt (by omega)
      · have heq : l.length - s + s - 1 = l.length - 1 := by omega
        rw [heq]
        have heq2 : l.length + s - 1 = l.length - 1 + s := by omega
        rw [heq2, Nat.add_div_right _ hs] at h
        omega
    have hfun : (fun k => (l.drop (Nat.succ k * s)).take s)
        = (fun k => ((l.drop s).drop (k * s)).take s) := by
      funext k
      rw [List.drop_drop]
      congr 2
      simp [Nat.succ_mul]
      omega
    calc (List.range (p + 1)).flatMap (fun k => (l.drop (k * s)).take s)
        = (0 :: (List.range p).map Nat.succ).flatMap
            (fun k => (l.drop (k * s)).take s) := by
          rw [List.range_succ_eq_map]
      _ = l.take s ++ ((List.range p).map Nat.succ).flatMap
            (fun k => (l.drop (k * s)).take s) := by
          simp
      _ = l.take s ++ (List.range p).flatMap
            (fun k => ((l.drop s).drop (k * s)).take s) := by
          rw [List.flatMap_map, hfun]
      _ = l.take s ++ l.drop s := by rw [ih (l.drop s) harg]
      _ = l := List.take_append_drop s l


/-- C1: for every accessory list `A`, filter spec `F` and limit `L` with
`1 ≤ L ≤ maxDevicesPerPage`, concatenating the page slices produced by the
listing pipeline for pages `1 .. totalPages` yields exactly
`applyAccessoryFilters A F`, in order, with no duplicates and no omissions. -/
theorem claim1_pagination_exhaustive (A : List Accessory) (F : FilterSpec)
    (L : Int) (maxDevicesPerPage : Nat)
    (hL1 : 1 ≤ L) (hL2 : L ≤ (maxDevicesPerPage : Int)) :
    (List.range (paginate (applyAccessoryFilters A F) 1 L maxDevicesPerPage).totalPages).flatMap
        (fun k => (paginate (applyAccessoryFilters A F) ((k : Int) + 1) L maxDevicesPerPage).items)
      = applyAccessoryFilters A F := by
  obtain ⟨s, rfl, hs1⟩ : ∃ s : Nat, L = (s : Int) ∧ 1 ≤ s :=
    ⟨L.toNat, by omega, by omega⟩
  have hps : min (maxDevicesPerPage : Int) (max 1 (s : Int)) = (s : Int) := by omega
  have htp : (paginate (applyAccessoryFilters A F) 1 (s : Int) maxDevicesPerPage).totalPages
      = ((applyAccessoryFilters A F).length + s - 1) / s := by
    simp [paginate, hps]
  have hitems : (fun k : Nat =>
        (paginate (applyAccessoryFilters A F) ((k : Int) + 1) (s : Int) maxDevicesPerPage).items)
      = (fun k : Nat => ((applyAccessoryFilters A F).drop (k * s)).take s) := by
    funext k
    have hpn : max 1 ((k : Int) + 1) = (k : Int) + 1 := by omega
    have hstart : ((max 1 ((k : Int) + 1) - 1) * min (maxDevicesPerPage : Int) (max 1 (s : Int))).toNat
        = k * s := by
      rw [hpn, hps]
      have : ((k : Int) + 1 - 1) * (s : Int) = ((k * s : Nat) : Int) := by push_cast; ring
      rw [this, Int.toNat_natCast]
    simp only [paginate]
    rw [hstart, hps]
    simp
  rw [htp, hitems]
  exact flatMap_range_chunks s (by omega) _ _ rfl

/-- A page number beyond the last page yields an empty slice and
`hasMore = false` rather than an error. -/
theorem paginate_beyond {α : Type} (items : List α) (page limit : Int)
    (maxDevicesPerPage : Nat) (hmax : 1 ≤ maxDevicesPerPage)
    (hbeyond : ((paginate items page limit maxDevicesPerPage).totalPages : Int)
        < (paginate items page limit maxDevicesPerPage).pageNum) :
    (paginate items page limit maxDevicesPerPage).items = []
    ∧ (paginate items page limit maxDevicesPerPage).hasMore = false := by
  obtain ⟨s, hseq, hs1, hsle⟩ :
      ∃ s : Nat, min (maxDevicesPerPage : Int) (max 1 limit) = (s : Int)
        ∧ 1 ≤ s ∧ s ≤ maxDevicesPerPage :=
    ⟨(min (maxDevicesPerPage : Int) (max 1 limit)).toNat, by omega, by omega, by omega⟩
  have htp : (paginate items page limit maxDevicesPerPage).totalPages
      = (items.length + s - 1) / s := by
    simp [paginate, hseq]
  have hnum : (paginate items page limit maxDevicesPerPage).pageNum = max 1 page := rfl
  have hmore : (paginate items page limit maxDevicesPerPage).hasMore
      = decide ((paginate items page limit maxDevicesPerPage).pageNum
          < ((paginate items page limit maxDevicesPerPage).totalPages : Int)) := rfl
  constructor
  · -- the slice starts at or past the end of the list
    have hlen : (items.length : Int)
        ≤ ((paginate items page limit maxDevicesPerPage).totalPages : Int) * (s : Int) := by
      rw [htp]
      have hmod := Nat.div_add_mod (items.length + s - 1) s
      have hmlt : (items.length + s - 1) % s < s := Nat.mod_lt _ (by omega)
      have : items.length ≤ ((items.length + s - 1) / s) * s := by
        have hcomm : ((items.length + s - 1) / s) * s
            = s * ((items.length + s - 1) / s) := Nat.mul_comm _ _
        omega
      exact_mod_cast this
    have hstartge : ((paginate items page limit maxDevicesPerPage).totalPages : Int) * (s : Int)
        ≤ (max 1 page - 1) * (s : Int) := by
      apply mul_le_mul_of_nonneg_right _ (by omega)
      rw [← hnum]
      omega
    have hfin : (items.length : Int) ≤ ((max 1 page - 1) * (s : Int)) := le_trans hlen hstartge
    show (items.drop ((max 1 page - 1) * min (maxDevicesPerPage : Int) (max 1 limit)).toNat).take
        (min (maxDevicesPerPage : Int) (max 1 limit)).toNat = []
    rw [hseq]
    have hdrop : items.drop ((max 1 page - 1) * (s : Int)).toNat = [] := by
      apply List.drop_eq_nil_of_le
      omega
    rw [hdrop, List.take_nil]
  · rw [hmore]
    simp
    omega

/-- C3: the pagination arithmetic of `handleListAccessories`: `pageNum` is
`max 1 ⌊page⌋`; `pageSize` is `⌊limit⌋` clamped into `[1, maxDevicesPerPage]`
(silently capped, never rejected); `totalPages` is the real ceiling of
`totalCount / pageSize` (`0` for an empty list while `pageNum` stays `≥ 1`
and the slice is empty); `hasMore = (pageNum < totalPages)`; and a `pageNum`
beyond `totalPages` yields an empty page with `hasMore = false`. -/
theorem claim3_pagination_arithmetic {α : Type} (items : List α)
    (page limit : Int) (maxDevicesPerPage : Nat)
    (hmax : 1 ≤ maxDevicesPerPage) :
    (paginate items page limit maxDevicesPerPage).pageNum = max 1 page
    ∧ (paginate items page limit maxDevicesPerPage).pageSize
        = min (maxDevicesPerPage : Int) (max 1 limit)
    ∧ 1 ≤ (paginate items page limit maxDevicesPerPage).pageSize
    ∧ (paginate items page limit maxDevicesPerPage).pageSize ≤ (maxDevicesPerPage : Int)
    ∧ ((maxDevicesPerPage : Int) < limit →
        (paginate items page limit maxDevicesPerPage).pageSize = (maxDevicesPerPage : Int))
    ∧ ((paginate items page limit maxDevicesPerPage).totalPages : Int)
        = ⌈(items.length : ℚ) / (((paginate items page limit maxDevicesPerPage).pageSize : Int) : ℚ)⌉
    ∧ (items = [] →
        (paginate items page limit maxDevicesPerPage).totalPages = 0
        ∧ 1 ≤ (paginate items page limit maxDevicesPerPage).pageNum
        ∧ (paginate items page limit maxDevicesPerPage).items = [])
    ∧ ((paginate items page limit maxDevicesPerPage).hasMore = true
        ↔ (paginate items page limit maxDevicesPerPage).pageNum
            < ((paginate items page limit maxDevicesPerPage).totalPages : Int))
    ∧ (((paginate items page limit maxDevicesPerPage).totalPages : Int)
          < (paginate items page limit maxDevicesPerPage).pageNum →
        (paginate items page limit maxDevicesPerPage).items = []
        ∧ (paginate items page limit maxDevicesPerPage).hasMore = false) := by
  obtain ⟨s, hseq, hs1, hsle⟩ :
      ∃ s : Nat, min (maxDevicesPerPage : Int) (max 1 limit) = (s : Int)
        ∧ 1 ≤ s ∧ s ≤ maxDevicesPerPage :=
    ⟨(min (maxDevicesPerPage : Int) (max 1 limit)).toNat, by omega, by omega, by omega⟩
  have hsize : (paginate items page limit maxDevicesPerPage).pageSize = (s : Int) := hseq
  have htp : (paginate items page limit maxDevicesPerPage).totalPages
      = (items.length + s - 1) / s := by
    simp [paginate, hseq]
  have hnum : (paginate items page limit maxDevicesPerPage).pageNum = max 1 page := rfl
  have hmore : (paginate items page limit maxDevicesPerPage).hasMore
      = decide ((paginate items page limit maxDevicesPerPage).pageNum
          < ((paginate items page limit maxDevicesPerPage).totalPages : Int)) := rfl
  refine ⟨rfl, rfl, by omega, by omega, by omega, ?_, ?_, ?_, ?_⟩
  · rw [htp, hsize]
    have hcast : (((s : ℕ) : ℤ) : ℚ) = ((s : ℕ) : ℚ) := by push_cast; ring
    rw [hcast]
    exact totalPages_eq_ceil items.length s hs1
  · intro h
    subst h
    refine ⟨?_, by rw [hnum]; exact le_max_left _ _, ?_⟩
    · rw [htp]
      simp only [List.length_nil]
      exact Nat.div_eq_of_lt (by omega)
    · simp [paginate]
  · rw [hmore]
    simp
  · exact paginate_beyond items page limit maxDevicesPerPage hmax

/-- The default token limits produced by the startup environment parsing
(src/index.js lines 296-302) when no environment overrides are set. -/
def exampleLimits : TokenLimits :=
  { maxResponseSize := 50000, maxDevicesPerPage := 20, warnThreshold := 30000,
    enableTruncation := true, forceSmartDefaults := true, autoSummaryThreshold := 10 }

/-- Field-level description of `getSmartDefaults` on `summary`. -/
theorem getSmartDefaults_summary (cfg : TokenLimits) (n : Nat) (req : RequestedParams) :
    (getSmartDefaults cfg n req).summary =
      if cfg.forceSmartDefaults = true ∧ cfg.autoSummaryThreshold < n ∧ req.summary = none
      then some true else req.summary := by
  rcases req with ⟨sm, li, mo⟩
  rcases hf : cfg.forceSmartDefaults <;>
    by_cases hn : cfg.autoSummaryThreshold < n <;>
      rcases sm with _ | b <;>
        simp_all [getSmartDefaults, apply_ite RequestedParams.summary,
                  apply_ite RequestedParams.metaOnly, apply_ite RequestedParams.limit]

/-- Field-level description of `getSmartDefaults` on `metaOnly`. -/
theorem getSmartDefaults_metaOnly (cfg : TokenLimits) (n : Nat) (req : RequestedParams) :
    (getSmartDefaults cfg n req).metaOnly =
      if cfg.forceSmartDefaults = true ∧ 100 < n ∧ req.metaOnly = none
      then some true else req.metaOnly := by
  rcases req with ⟨sm, li, mo⟩
  rcases hf : cfg.forceSmartDefaults <;>
    by_cases hn : 100 < n <;>
      rcases mo with _ | c <;>
        simp_all [getSmartDefaults, apply_ite RequestedParams.summary,
                  apply_ite RequestedParams.metaOnly, apply_ite RequestedParams.limit]

/-- Field-level description of `getSmartDefaults` on `limit`. -/
theorem getSmartDefaults_limit (cfg : TokenLimits) (n : Nat) (req : RequestedParams) :
    (getSmartDefaults cfg n req).limit =
      if cfg.forceSmartDefaults = true ∧ 50 < n
          ∧ (!limitTruthy req.limit || limitAboveTen req.limit) = true
      then some (min (limitOrTen req.limit) 10) else req.limit := by
  rcases req with ⟨sm, li, mo⟩
  rcases hf : cfg.forceSmartDefaults <;>
    by_cases hn : 50 < n <;>
      by_cases hc : (!limitTruthy li || limitAboveTen li) = true <;>
        simp_all [getSmartDefaults, apply_ite RequestedParams.summary,
                  apply_ite RequestedParams.metaOnly, apply_ite RequestedParams.limit]

/-- C2 counterexample: with smart defaults enabled and a filtered count of 60,
a caller-supplied `limit = 0` (a defined value) is overridden to `10`, so
`getSmartDefaults` does not return every defined field unchanged. -/
theorem claim2_counterexample :
    (getSmartDefaults exampleLimits 60 ⟨none, some 0, none⟩).limit = some 10
    ∧ (getSmartDefaults exampleLimits 60 ⟨none, some 0, none⟩).limit ≠ some 0 := by
  decide

/-- C2 (amended): `summary` and `metaOnly` set to any defined value
(including `false`) are always returned unchanged; a defined `limit` is
returned unchanged unless smart defaults are enabled, the filtered count
exceeds 50, and the caller's limit is `0` (falsy) or greater than `10` — in
which case it is overridden to `min(limit || 10, 10)`. -/
theorem claim2_defined_fields : ∀ (cfg : TokenLimits) (n : Nat) (req : RequestedParams),
    (∀ b : Bool, req.summary = some b → (getSmartDefaults cfg n req).summary = some b)
    ∧ (∀ b : Bool, req.metaOnly = some b → (getSmartDefaults cfg n req).metaOnly = some b)
    ∧ (∀ v : Int, req.limit = some v →
        ¬(cfg.forceSmartDefaults = true ∧ 50 < n ∧ (v = 0 ∨ 10 < v)) →
        (getSmartDefaults cfg n req).limit = some v) := by
  intro cfg n req
  refine ⟨?_, ?_, ?_⟩
  · intro b hb
    rw [getSmartDefaults_summary, if_neg, hb]
    rintro ⟨-, -, hnone⟩
    rw [hb] at hnone
    exact Option.some_ne_none b hnone
  · intro b hb
    rw [getSmartDefaults_metaOnly, if_neg, hb]
    rintro ⟨-, -, hnone⟩
    rw [hb] at hnone
    exact Option.some_ne_none b hnone
  · intro v hv hcond
    rw [getSmartDefaults_limit, if_neg, hv]
    rintro ⟨h1, h2, h3⟩
    apply hcond
    refine ⟨h1, h2, ?_⟩
    rw [hv] at h3
    simp [limitTruthy, limitAboveTen] at h3
    rcases h3 with h3 | h3
    · exact Or.inl h3
    · exact Or.inr h3

/-- Witness for C2 (amended): a request with `summary = false`,
`metaOnly = false` and `limit = 5` passes through unchanged even at a
filtered count of 200. -/
theorem claim2_witness :
    (getSmartDefaults exampleLimits 200 ⟨some false, some 5, some false⟩).summary = some false
    ∧ (getSmartDefaults exampleLimits 200 ⟨some false, some 5, some false⟩).metaOnly = some false
    ∧ (getSmartDefaults exampleLimits 200 ⟨some false, some 5, some false⟩).limit = some 5 :=
  ⟨(claim2_defined_fields exampleLimits 200 ⟨some false, some 5, some false⟩).1 false rfl,
   (claim2_defined_fields exampleLimits 200 ⟨some false, some 5, some false⟩).2.1 false rfl,
   (claim2_defined_fields exampleLimits 200 ⟨some false, some 5, some false⟩).2.2 5 rfl
     (by decide)⟩

/-- C8: with smart defaults enabled, a filtered count above
`autoSummaryThreshold` and `summary` unset resolve to `summary = true`; an
explicit `summary = false` is never overridden; and concretely a count of 15
against the default threshold 10 yields `summary = true`. -/
theorem claim8_auto_summary :
    (∀ (cfg : TokenLimits) (n : Nat) (req : RequestedParams),
        cfg.forceSmartDefaults = true → cfg.autoSummaryThreshold < n → req.summary = none →
        (getSmartDefaults cfg n req).summary = some true)
    ∧ (∀ (cfg : TokenLimits) (n : Nat) (req : RequestedParams),
        req.summary = some false → (getSmartDefaults cfg n req).summary = some false)
    ∧ (getSmartDefaults exampleLimits 15 ⟨none, none, none⟩).summary = some true := by
  refine ⟨?_, ?_, by decide⟩
  · intro cfg n req h1 h2 h3
    rw [getSmartDefaults_summary, if_pos ⟨h1, h2, h3⟩]
  · intro cfg n req hb
    rw [getSmartDefaults_summary, if_neg, hb]
    rintro ⟨-, -, hnone⟩
    rw [hb] at hnone
    exact Option.some_ne_none false hnone

/-- Witness for C8: concrete instances of both universally quantified
conjuncts. -/
theorem claim8_witness :
    (getSmartDefaults exampleLimits 15 ⟨none, none, none⟩).summary = some true
    ∧ (getSmartDefaults exampleLimits 200 ⟨some false, none, none⟩).summary = some false :=
  ⟨claim8_auto_summary.1 exampleLimits 15 ⟨none, none, none⟩ rfl (by decide) rfl,
   claim8_auto_summary.2.1 exampleLimits 200 ⟨some false, none, none⟩ rfl⟩

/-- C7: when the serialized content fits in `maxResponseSize`, or truncation
is disabled (even for oversized content), `processResponse` returns the
content unchanged. -/
theorem claim7_pass_through (cfg : TokenLimits) (content : List Block)
    (h : (jsonStringifyContent content).length ≤ cfg.maxResponseSize
        ∨ cfg.enableTruncation = false) :
    processResponse cfg content = content := by
  rcases h with h | h
  · simp only [processResponse, checkResponseSize]
    rw [if_neg (by omega)]
  · simp only [processResponse, checkResponseSize]
    split
    · simp [truncateResponse, h]
    · rfl

/-- Witness for C7: a small content list passes through under the default
limits, and a 2000-character block passes through unchanged when truncation
is disabled with `maxResponseSize = 1000`. -/
theorem claim7_witness :
    processResponse exampleLimits [⟨"text", "hi"⟩] = [⟨"text", "hi"⟩]
    ∧ processResponse ⟨1000, 20, 30000, false, true, 10⟩
        [⟨"text", String.mk (List.replicate 2000 'x')⟩]
      = [⟨"text", String.mk (List.replicate 2000 'x')⟩] :=
  ⟨claim7_pass_through exampleLimits [⟨"text", "hi"⟩] (Or.inl (by decide)),
   claim7_pass_through ⟨1000, 20, 30000, false, true, 10⟩
     [⟨"text", String.mk (List.replicate 2000 'x')⟩] (Or.inr rfl)⟩

/-- The token limits used by the truncation scenario: `maxResponseSize = 1000`
with truncation enabled (matching the repository's token-protection tests). -/
def truncCfg : TokenLimits :=
  { maxResponseSize := 1000, maxDevicesPerPage := 20, warnThreshold := 30000,
    enableTruncation := true, forceSmartDefaults := true, autoSummaryThreshold := 10 }

/-- A text payload of 2000 characters. -/
def aText : String := String.mk (List.replicate 2000 'a')

/-- A content list consisting of one text block of 2000 characters. -/
def bigContent : List Block := [⟨"text", aText⟩]

theorem aText_toList : aText.toList = List.replicate 2000 'a' := rfl

theorem aText_length : aText.length = 2000 :=
  List.length_replicate 2000 'a'

theorem jsonEscape_append (l1 l2 : List Char) :
    jsonEscape (l1 ++ l2) = jsonEscape l1 ++ jsonEscape l2 := by
  simp [jsonEscape]

theorem jsonEscape_replicate_a (n : Nat) :
    jsonEscape (List.replicate n 'a') = List.replicate n 'a' := by
  induction n with
  | zero => rfl
  | succ n ih =>
    rw [List.replicate_succ]
    show jsonEscapeChar 'a' ++ jsonEscape (List.replicate n 'a')
        = 'a' :: List.replicate n 'a'
    rw [ih]
    rfl

theorem jsonQuote_length_aText : (jsonQuote aText).length = 2002 := by
  show ('"' :: jsonEscape aText.toList ++ ['"']).length = 2002
  rw [aText_toList, jsonEscape_replicate_a]
  simp only [List.length_cons, List.length_append, List.length_replicate,
    List.length_nil]

theorem size_bigContent : (jsonStringifyContent bigContent).length = 2027 := by
  show ("[" ++ jsonJoin [jsonBlock ⟨"text", aText⟩] ++ "]").length = 2027
  rw [show jsonJoin [jsonBlock ⟨"text", aText⟩] = jsonBlock ⟨"text", aText⟩ from rfl,
    jsonBlock]
  simp only [String.length_append, jsonQuote_length_aText]
  decide

theorem bannerText_length :
    (truncationBanner 2027 1000 ++ "\n" ++ aText).length = 2049 := by
  simp only [String.length_append, aText_length]
  decide

theorem bannerText_toList :
    (truncationBanner 2027 1000 ++ "\n" ++ aText).toList
      = (truncationBanner 2027 1000).toList ++ "\n".toList ++ aText.toList := by
  show ((truncationBanner 2027 1000 ++ "\n" ++ aText)).data = _
  simp [String.data_append]

theorem jsonQuote_length_bannerText :
    (jsonQuote (truncationBanner 2027 1000 ++ "\n" ++ aText)).length = 2052 := by
  show ('"' :: jsonEscape (truncationBanner 2027 1000 ++ "\n" ++ aText).toList ++ ['"']).length
      = 2052
  rw [bannerText_toList, jsonEscape_append, jsonEscape_append, aText_toList,
    jsonEscape_replicate_a]
  simp only [List.length_cons, List.length_append, List.length_replicate,
    List.length_nil]
  decide

theorem size_bannerContent :
    (jsonStringifyContent [⟨"text", truncationBanner 2027 1000 ++ "\n" ++ aText⟩]).length
      = 2077 := by
  show ("[" ++ jsonJoin [jsonBlock ⟨"text", truncationBanner 2027 1000 ++ "\n" ++ aText⟩]
      ++ "]").length = 2077
  rw [show jsonJoin [jsonBlock ⟨"text", truncationBanner 2027 1000 ++ "\n" ++ aText⟩]
      = jsonBlock ⟨"text", truncationBanner 2027 1000 ++ "\n" ++ aText⟩ from rfl, jsonBlock]
  simp only [String.length_append, jsonQuote_length_bannerText]
  decide

/-- `listHasInfix` decides the contiguous-substring relation. -/
theorem listHasInfix_iff (pat l : List Char) :
    listHasInfix pat l = true ↔ pat <:+: l := by
  induction l with
  | nil => simp [listHasInfix, List.isEmpty_iff]
  | cons c rest ih =>
    simp [listHasInfix, List.infix_cons_iff, List.isPrefixOf_iff_prefix, ih]

theorem truncated_block_length :
    (strTake (truncationBanner 2027 1000 ++ "\n" ++ aText) 800 ++ truncationMarker).length
      = 863 := by
  rw [String.length_append]
  have h1 : (strTake (truncationBanner 2027 1000 ++ "\n" ++ aText) 800).length
      = min 800 (truncationBanner 2027 1000 ++ "\n" ++ aText).length := by
    show ((truncationBanner 2027 1000 ++ "\n" ++ aText).toList.take 800).length = _
    rw [List.length_take]
    rfl
  rw [h1, bannerText_length]
  decide

/-- C6: with `maxResponseSize = 1000` and truncation enabled, a single
2000-character text block is not returned verbatim: the result is a single
text block that starts with the truncation banner and contains the fixed
truncation marker. -/
theorem claim6_truncation :
    processResponse truncCfg bigContent ≠ bigContent
    ∧ (processResponse truncCfg bigContent).length = 1
    ∧ (processResponse truncCfg bigContent).any (fun b =>
        b.type == "text"
        && strStartsWith b.text "⚠️  RESPONSE TRUNCATED ("
        && strContains b.text truncationMarker) = true := by
  have hout : processResponse truncCfg bigContent
      = [⟨"text", strTake (truncationBanner 2027 1000 ++ "\n" ++ aText) 800
          ++ truncationMarker⟩] := by
    have h1 : processResponse truncCfg bigContent
        = truncateResponse truncCfg bigContent 2027 := by
      simp only [processResponse, checkResponseSize, size_bigContent]
      rw [if_pos (by decide)]
    rw [h1]
    simp only [truncateResponse, bigContent,
      show truncCfg.maxResponseSize = 1000 from rfl,
      show truncCfg.enableTruncation = true from rfl]
    rw [if_neg (by decide)]
    simp only [if_true, List.length_cons, List.length_nil, size_bannerContent]
    rw [if_pos (by decide)]
    simp only [List.map_cons, List.map_nil, bannerText_length]
    norm_num
    rfl
  refine ⟨?_, ?_, ?_⟩
  · rw [hout]
    intro h
    simp only [bigContent, List.cons.injEq, Block.mk.injEq, and_true, true_and] at h
    have hlen := congrArg String.length h
    rw [truncated_block_length, aText_length] at hlen
    exact absurd hlen (by decide)
  · rw [hout]
    rfl
  · rw [hout]
    simp only [List.any_cons, List.any_nil, Bool.or_false, Bool.and_eq_true, beq_iff_eq]
    refine ⟨⟨trivial, ?_⟩, ?_⟩
    · -- the banner prefix survives the 800-character cut
      show ("⚠️  RESPONSE TRUNCATED (" : String).toList.isPrefixOf _ = true
      rw [List.isPrefixOf_iff_prefix]
      have hp : ("⚠️  RESPONSE TRUNCATED (" : String).toList
          <+: (truncationBanner 2027 1000 ++ "\n" ++ aText).toList := by
        rw [← List.isPrefixOf_iff_prefix]
        decide
      have hp800 : ("⚠️  RESPONSE TRUNCATED (" : String).toList
          <+: (truncationBanner 2027 1000 ++ "\n" ++ aText).toList.take 800 :=
        List.prefix_take_iff.mpr ⟨hp, by decide⟩
      exact hp800.trans (List.prefix_append _ _)
    · show listHasInfix truncationMarker.toList _ = true
      rw [listHasInfix_iff]
      exact (List.suffix_append _ _).isInfix

/-! ## Structural facts about the filter chain -/

theorem roomStage_sublist (ro : Option Int) (l : List Accessory) :
    (roomStage ro l).Sublist l := by
  cases ro with
  | none => exact List.Sublist.refl l
  | some r => exact List.filter_sublist l

theorem controllableStage_sublist (co : Bool) (l : List Accessory) :
    (controllableStage co l).Sublist l := by
  cases co with
  | false => exact List.Sublist.refl l
  | true => exact List.filter_sublist l

theorem nameStage_sublist (nf : Option String) (l : List Accessory) :
    (nameStage nf l).Sublist l := by
  unfold nameStage
  split
  · split
    · exact List.Sublist.refl l
    · exact List.filter_sublist l
  · exact List.Sublist.refl l

theorem deviceTypeStage_sublist (dtf : Option String) (l : List Accessory) :
    (deviceTypeStage dtf l).Sublist l := by
  unfold deviceTypeStage
  split
  · split
    · exact List.Sublist.refl l
    · exact List.filter_sublist l
  · exact List.Sublist.refl l

theorem manufacturerStage_sublist (mf : Option String) (l : List Accessory) :
    (manufacturerStage mf l).Sublist l := by
  unfold manufacturerStage
  split
  · split
    · exact List.Sublist.refl l
    · exact List.filter_sublist l
  · exact List.Sublist.refl l

theorem modelStage_sublist (mf : Option String) (l : List Accessory) :
    (modelStage mf l).Sublist l := by
  unfold modelStage
  split
  · split
    · exact List.Sublist.refl l
    · exact List.filter_sublist l
  · exact List.Sublist.refl l

theorem onlineStage_sublist (oo off : Bool) (l : List Accessory) :
    (onlineStage oo off l).Sublist l := by
  unfold onlineStage
  split
  · exact List.filter_sublist l
  · split
    · exact List.filter_sublist l
    · exact List.Sublist.refl l

theorem applyAccessoryFilters_sublist (A : List Accessory) (F : FilterSpec) :
    (applyAccessoryFilters A F).Sublist A :=
  ((((((onlineStage_sublist _ _ _).trans
    (modelStage_sublist _ _)).trans
      (manufacturerStage_sublist _ _)).trans
        (deviceTypeStage_sublist _ _)).trans
          (nameStage_sublist _ _)).trans
            (controllableStage_sublist _ _)).trans
              (roomStage_sublist _ _)

/-- C10: the filter chain returns an order-preserving subsequence of its
input: every returned accessory occurs in the input, the input order is kept,
and no accessory occurs more often than in the input. -/
theorem claim10_subsequence (A : List Accessory) (F : FilterSpec) :
    (applyAccessoryFilters A F).Sublist A
    ∧ (∀ x : Accessory, x ∈ applyAccessoryFilters A F → x ∈ A)
    ∧ (∀ x : Accessory, (applyAccessoryFilters A F).count x ≤ A.count x) :=
  ⟨applyAccessoryFilters_sublist A F,
   fun _ hx => (applyAccessoryFilters_sublist A F).subset hx,
   fun x => (applyAccessoryFilters_sublist A F).count_le x⟩

/-! ## C4: semantics of the device-type filter -/

theorem charTypeMatches_iff (ts ct : String) :
    charTypeMatches ts ct = true ↔
      ((∃ ms, typeMap.lookup ts = some ms
          ∧ ∃ m ∈ ms, strContains (strLower ct) (strLower m) = true)
       ∨ (typeMap.lookup ts = none ∧ strContains (strLower ct) ts = true)) := by
  unfold charTypeMatches
  cases hlk : typeMap.lookup ts with
  | none => simp [hlk]
  | some ms => simp [hlk, List.any_eq_true]

theorem serviceMatchesType_iff (ts : String) (s : Service) :
    serviceMatchesType ts s = true ↔
      ((∃ st, s.type = some st ∧ st ≠ "" ∧ strContains (strLower st) ts = true)
       ∨ (∃ cs, s.characteristics = some cs ∧ ∃ c ∈ cs, ∃ ct, c.type = some ct ∧ ct ≠ ""
           ∧ charTypeMatches ts ct = true)) := by
  unfold serviceMatchesType
  rw [Bool.or_eq_true]
  apply or_congr
  · cases hst : s.type with
    | none => simp
    | some st =>
      by_cases h : st = "" <;> simp [h]
  · cases hcs : s.characteristics with
    | none => simp
    | some cs =>
      simp only [List.any_eq_true, Option.some.injEq, exists_eq_left,
        exists_eq_left']
      apply exists_congr
      intro c
      apply and_congr_right
      intro _
      cases hct : c.type with
      | none => simp
      | some ct =>
        by_cases h : ct = "" <;> simp [h]

theorem deviceTypeMatches_iff (ts : String) (acc : Accessory) :
    deviceTypeMatches ts acc = true ↔
      ∃ svcs, acc.services = some svcs ∧ ∃ s ∈ svcs, serviceMatchesType ts s = true := by
  unfold deviceTypeMatches
  cases hsv : acc.services with
  | none => simp
  | some svcs => simp [List.any_eq_true]

/-- With only `deviceTypeFilter` set, the whole chain is exactly the
device-type filter. -/
theorem applyAccessoryFilters_deviceType_only (A : List Accessory) (t : String)
    (ht : t ≠ "") :
    applyAccessoryFilters A { deviceTypeFilter := some t }
      = A.filter (deviceTypeMatches (strLower t)) := by
  simp [applyAccessoryFilters, roomStage, controllableStage, nameStage,
    deviceTypeStage, manufacturerStage, modelStage, onlineStage, ht]

/-- An accessory whose only matching characteristic is an `AirQuality`
sensor reading. -/
def airQualityAcc : Accessory :=
  { id := 1, name := some "AQ Sensor", manufacturer := some "Acme",
    model := some "AQ1", online := true, roomId := some 1,
    services := some [⟨some "Sensor", some [⟨some "AirQuality", none⟩]⟩] }

/-- An accessory whose only relevant characteristic type is
`CurrentTemperature`. -/
def temperatureAcc : Accessory :=
  { id := 2, name := some "Thermometer", manufacturer := some "Acme",
    model := some "T1", online := true, roomId := some 1,
    services := some [⟨some "Sensor", some [⟨some "CurrentTemperature", none⟩]⟩] }

/-- C4: with `deviceTypeFilter` set (and no other filter active), an
accessory is kept iff some service type contains the lowercased token as a
substring, or some characteristic type matches through the capability map
(mapped substrings when the token is a key, raw substring fallback
otherwise); concretely, `air_quality` keeps an `AirQuality` characteristic
and drops a `CurrentTemperature` one. -/
theorem claim4_device_type_filter :
    (∀ (A : List Accessory) (t : String) (acc : Accessory), t ≠ "" →
      (acc ∈ applyAccessoryFilters A { deviceTypeFilter := some t } ↔
        acc ∈ A ∧ ∃ svcs, acc.services = some svcs ∧ ∃ s ∈ svcs,
          ((∃ st, s.type = some st ∧ st ≠ ""
              ∧ strContains (strLower st) (strLower t) = true)
           ∨ (∃ cs, s.characteristics = some cs ∧ ∃ c ∈ cs, ∃ ct, c.type = some ct
               ∧ ct ≠ ""
               ∧ ((∃ ms, typeMap.lookup (strLower t) = some ms
                     ∧ ∃ m ∈ ms, strContains (strLower ct) (strLower m) = true)
                  ∨ (typeMap.lookup (strLower t) = none
                     ∧ strContains (strLower ct) (strLower t) = true))))))
    ∧ applyAccessoryFilters [airQualityAcc, temperatureAcc]
        { deviceTypeFilter := some "air_quality" } = [airQualityAcc] := by
  constructor
  · intro A t acc ht
    rw [applyAccessoryFilters_deviceType_only A t ht, List.mem_filter,
      deviceTypeMatches_iff]
    apply and_congr_right
    intro _
    apply exists_congr
    intro svcs
    apply and_congr_right
    intro _
    apply exists_congr
    intro s
    apply and_congr_right
    intro _
    rw [serviceMatchesType_iff]
    apply or_congr Iff.rfl
    apply exists_congr
    intro cs
    apply and_congr_right
    intro _
    apply exists_congr
    intro c
    apply and_congr_right
    intro _
    apply exists_congr
    intro ct
    apply and_congr_right
    intro _
    apply and_congr_right
    intro _
    exact charTypeMatches_iff (strLower t) ct
  · decide

/-- Witness for C4: the membership characterization instantiated at the
`air_quality` example. -/
theorem claim4_witness :
    airQualityAcc ∈ applyAccessoryFilters [airQualityAcc, temperatureAcc]
        { deviceTypeFilter := some "air_quality" } ↔
      airQualityAcc ∈ [airQualityAcc, temperatureAcc]
      ∧ ∃ svcs, airQualityAcc.services = some svcs ∧ ∃ s ∈ svcs,
          ((∃ st, s.type = some st ∧ st ≠ ""
              ∧ strContains (strLower st) (strLower "air_quality") = true)
           ∨ (∃ cs, s.characteristics = some cs ∧ ∃ c ∈ cs, ∃ ct, c.type = some ct
               ∧ ct ≠ ""
               ∧ ((∃ ms, typeMap.lookup (strLower "air_quality") = some ms
                     ∧ ∃ m ∈ ms, strContains (strLower ct) (strLower m) = true)
                  ∨ (typeMap.lookup (strLower "air_quality") = none
                     ∧ strContains (strLower ct) (strLower "air_quality") = true)))) :=
  claim4_device_type_filter.1 [airQualityAcc, temperatureAcc] "air_quality"
    airQualityAcc (by decide)

/-! ## C5: idempotence of the filter chain -/

/-- A controllable accessory named "x" with id 1. -/
def dupCtrlAcc : Accessory :=
  { id := 1, name := some "x", manufacturer := none, model := none,
    online := true, roomId := none,
    services := some [⟨some "Switch", some [⟨some "On", some ⟨true⟩⟩]⟩] }

/-- A non-controllable accessory named "y" sharing id 1. -/
def dupPlainAcc : Accessory :=
  { id := 1, name := some "y", manufacturer := none, model := none,
    online := true, roomId := none, services := some [] }

/-- `controllableOnly` together with a name filter. -/
def dupFilter : FilterSpec := { controllableOnly := true, nameFilter := some "y" }

/-- C5 counterexample: on a list with a duplicated id, the chain is not
idempotent — the first pass keeps "y" (its id is certified controllable by
"x"), but the second pass drops it because "x" is gone. -/
theorem claim5_counterexample :
    applyAccessoryFilters (applyAccessoryFilters [dupCtrlAcc, dupPlainAcc] dupFilter)
        dupFilter
      ≠ applyAccessoryFilters [dupCtrlAcc, dupPlainAcc] dupFilter := by
  decide

/-- id-based membership of `getControllableCharacteristics`. -/
theorem mem_controllableIds (l : List Accessory) (x : Int) :
    x ∈ (getControllableCharacteristics l).map (fun c => c.accessoryId)
      ↔ ∃ a ∈ l, hasControllableCharacteristic a = true ∧ a.id = x := by
  constructor
  · intro hx
    rw [List.mem_map] at hx
    obtain ⟨cc, hcc, rfl⟩ := hx
    rw [getControllableCharacteristics, List.mem_filterMap] at hcc
    obtain ⟨a, ha, hga⟩ := hcc
    by_cases h : hasControllableCharacteristic a = true
    · rw [if_pos h] at hga
      cases hga
      exact ⟨a, ha, h, rfl⟩
    · rw [if_neg h] at hga
      cases hga
  · rintro ⟨a, ha, hc, rfl⟩
    rw [List.mem_map]
    exact ⟨⟨a.id⟩, List.mem_filterMap.mpr ⟨a, ha, by rw [if_pos hc]⟩, rfl⟩

/-- In a list with pairwise-distinct ids, equal ids force equal elements. -/
theorem eq_of_mem_of_id_eq {l : List Accessory}
    (hl : l.Pairwise (fun a b => a.id ≠ b.id))
    {a b : Accessory} (ha : a ∈ l) (hb : b ∈ l) (hid : a.id = b.id) : a = b := by
  induction l with
  | nil => cases ha
  | cons x xs ih =>
    rcases List.pairwise_cons.mp hl with ⟨hx, hxs⟩
    rcases List.mem_cons.mp ha with rfl | ha'
    · rcases List.mem_cons.mp hb with rfl | hb'
      · rfl
      · exact absurd hid (hx b hb')
    · rcases List.mem_cons.mp hb with rfl | hb'
      · exact absurd hid.symm (hx a ha')
      · exact ih hxs ha' hb'

theorem roomStage_eq_filter (r : Int) (l : List Accessory) :
    roomStage (some r) l = l.filter (fun a => a.roomId == some r) := rfl

theorem controllableStage_true_eq (l : List Accessory) :
    controllableStage true l
      = l.filter (fun acc =>
          ((getControllableCharacteristics l).map (fun c => c.accessoryId)).contains acc.id) :=
  rfl

theorem nameStage_eq_filter (s : String) (hs : s ≠ "") (l : List Accessory) :
    nameStage (some s) l = l.filter (fun acc =>
      match acc.name with
      | some nm => if nm = "" then false else strContains (strLower nm) (strLower s)
      | none => false) := by
  show (if s = "" then l else _) = _
  rw [if_neg hs]

theorem deviceTypeStage_eq_filter (s : String) (hs : s ≠ "") (l : List Accessory) :
    deviceTypeStage (some s) l = l.filter (deviceTypeMatches (strLower s)) := by
  show (if s = "" then l else _) = _
  rw [if_neg hs]

theorem manufacturerStage_eq_filter (s : String) (hs : s ≠ "") (l : List Accessory) :
    manufacturerStage (some s) l = l.filter (fun acc =>
      match acc.manufacturer with
      | some m => if m = "" then false else strContains (strLower m) (strLower s)
      | none => false) := by
  show (if s = "" then l else _) = _
  rw [if_neg hs]

theorem modelStage_eq_filter (s : String) (hs : s ≠ "") (l : List Accessory) :
    modelStage (some s) l = l.filter (fun acc =>
      match acc.model with
      | some m => if m = "" then false else strContains (strLower m) (strLower s)
      | none => false) := by
  show (if s = "" then l else _) = _
  rw [if_neg hs]

theorem onlineStage_true_eq (off : Bool) (l : List Accessory) :
    onlineStage true off l = l.filter (fun a => a.online == true) := rfl

theorem onlineStage_offline_eq (l : List Accessory) :
    onlineStage false true l = l.filter (fun a => a.online == false) := rfl

/-- C5 (amended): on accessory lists with pairwise-distinct ids — the
snapshot invariant of the data model — the filter chain is idempotent.  With
a duplicated id the `controllableOnly` step can certify an accessory through
a namesake that a later filter removes, breaking idempotence (see the
counterexample). -/
theorem claim5_idempotent (A : List Accessory) (F : FilterSpec)
    (hA : A.Pairwise (fun a b => a.id ≠ b.id)) :
    applyAccessoryFilters (applyAccessoryFilters A F) F
      = applyAccessoryFilters A F := by
  obtain ⟨ro, co, nf, dtf, mf, mo, oo, off⟩ := F
  show applyAccessoryFilters
      (onlineStage oo off (modelStage mo (manufacturerStage mf (deviceTypeStage dtf
        (nameStage nf (controllableStage co (roomStage ro A))))))) ⟨ro, co, nf, dtf, mf, mo, oo, off⟩
    = onlineStage oo off (modelStage mo (manufacturerStage mf (deviceTypeStage dtf
        (nameStage nf (controllableStage co (roomStage ro A))))))
  set l1 := roomStage ro A with hl1
  set l2 := controllableStage co l1 with hl2
  set l3 := nameStage nf l2 with hl3
  set l4 := deviceTypeStage dtf l3 with hl4
  set l5 := manufacturerStage mf l4 with hl5
  set l6 := modelStage mo l5 with hl6
  set B := onlineStage oo off l6 with hB
  have sB6 : B.Sublist l6 := hB ▸ onlineStage_sublist oo off l6
  have sB5 : B.Sublist l5 := sB6.trans (hl6 ▸ modelStage_sublist mo l5)
  have sB4 : B.Sublist l4 := sB5.trans (hl5 ▸ manufacturerStage_sublist mf l4)
  have sB3 : B.Sublist l3 := sB4.trans (hl4 ▸ deviceTypeStage_sublist dtf l3)
  have sB2 : B.Sublist l2 := sB3.trans (hl3 ▸ nameStage_sublist nf l2)
  have sB1 : B.Sublist l1 := sB2.trans (hl2 ▸ controllableStage_sublist co l1)
  have hA1 : l1.Pairwise (fun a b => a.id ≠ b.id) :=
    List.Pairwise.sublist (hl1 ▸ roomStage_sublist ro A) hA
  -- each stage leaves B unchanged on the second pass
  have hroom : roomStage ro B = B := by
    cases hro : ro with
    | none => rfl
    | some r =>
      rw [roomStage_eq_filter]
      apply List.filter_eq_self.mpr
      intro b hb
      have hb1 : b ∈ l1 := sB1.subset hb
      rw [hl1, hro, roomStage_eq_filter] at hb1
      have hp := List.of_mem_filter hb1; exact hp
  have hctrl : controllableStage co B = B := by
    cases hco : co with
    | false => rfl
    | true =>
      rw [controllableStage_true_eq]
      apply List.filter_eq_self.mpr
      intro b hb
      have hb2 : b ∈ l2 := sB2.subset hb
      rw [hl2, hco, controllableStage_true_eq] at hb2
      have hmem := List.of_mem_filter hb2
      rw [List.contains_iff_exists_mem_beq] at hmem
      obtain ⟨x, hx, hbeq⟩ := hmem
      have hxid : b.id = x := eq_of_beq hbeq
      rw [mem_controllableIds] at hx
      obtain ⟨a, ha1, hactrl, haid⟩ := hx
      have hb1 : b ∈ l1 := sB1.subset hb
      have hab : a = b := eq_of_mem_of_id_eq hA1 ha1 hb1 (by omega)
      subst hab
      rw [List.contains_iff_exists_mem_beq]
      refine ⟨a.id, ?_, by simp⟩
      rw [mem_controllableIds]
      exact ⟨a, hb, hactrl, rfl⟩
  have hname : nameStage nf B = B := by
    cases hnf : nf with
    | none => rfl
    | some s =>
      by_cases hs : s = ""
      · subst hs
        rfl
      · rw [nameStage_eq_filter s hs]
        apply List.filter_eq_self.mpr
        intro b hb
        have hb3 : b ∈ l3 := sB3.subset hb
        rw [hl3, hnf, nameStage_eq_filter s hs] at hb3
        have hp := List.of_mem_filter hb3; exact hp
  have hdt : deviceTypeStage dtf B = B := by
    cases hdtf : dtf with
    | none => rfl
    | some s =>
      by_cases hs : s = ""
      · subst hs
        rfl
      · rw [deviceTypeStage_eq_filter s hs]
        apply List.filter_eq_self.mpr
        intro b hb
        have hb4 : b ∈ l4 := sB4.subset hb
        rw [hl4, hdtf, deviceTypeStage_eq_filter s hs] at hb4
        have hp := List.of_mem_filter hb4; exact hp
  have hmanu : manufacturerStage mf B = B := by
    cases hmf : mf with
    | none => rfl
    | some s =>
      by_cases hs : s = ""
      · subst hs
        rfl
      · rw [manufacturerStage_eq_filter s hs]
        apply List.filter_eq_self.mpr
        intro b hb
        have hb5 : b ∈ l5 := sB5.subset hb
        rw [hl5, hmf, manufacturerStage_eq_filter s hs] at hb5
        have hp := List.of_mem_filter hb5; exact hp
  have hmodel : modelStage mo B = B := by
    cases hmo : mo with
    | none => rfl
    | some s =>
      by_cases hs : s = ""
      · subst hs
        rfl
      · rw [modelStage_eq_filter s hs]
        apply List.filter_eq_self.mpr
        intro b hb
        have hb6 : b ∈ l6 := sB6.subset hb
        rw [hl6, hmo, modelStage_eq_filter s hs] at hb6
        have hp := List.of_mem_filter hb6; exact hp
  have honline : onlineStage oo off B = B := by
    cases hoo : oo with
    | true =>
      rw [onlineStage_true_eq]
      apply List.filter_eq_self.mpr
      intro b hb
      have hbB : b ∈ B := hb
      rw [hB, hoo, onlineStage_true_eq] at hbB
      have hp := List.of_mem_filter hbB; exact hp
    | false =>
      cases hoff : off with
      | false => rfl
      | true =>
        rw [onlineStage_offline_eq]
        apply List.filter_eq_self.mpr
        intro b hb
        have hbB : b ∈ B := hb
        rw [hB, hoo, hoff, onlineStage_offline_eq] at hbB
        have hp := List.of_mem_filter hbB; exact hp
  show onlineStage oo off (modelStage mo (manufacturerStage mf (deviceTypeStage dtf
      (nameStage nf (controllableStage co (roomStage ro B)))))) = B
  rw [hroom, hctrl, hname, hdt, hmanu, hmodel, honline]

/-- Witness for C5 (amended): the two-accessory air-quality example has
distinct ids, and filtering it twice equals filtering it once. -/
theorem claim5_witness :
    applyAccessoryFilters
        (applyAccessoryFilters [airQualityAcc, temperatureAcc]
          { deviceTypeFilter := some "air_quality" })
        { deviceTypeFilter := some "air_quality" }
      = applyAccessoryFilters [airQualityAcc, temperatureAcc]
          { deviceTypeFilter := some "air_quality" } :=
  claim5_idempotent [airQualityAcc, temperatureAcc]
    { deviceTypeFilter := some "air_quality" } (by decide)

/-! ## C9: totality and well-formedness of the pipeline steps -/

/-- Truncation keeps the block structure: it never drops a block and adds at
most the one banner block. -/
theorem truncateResponse_length_bounds (cfg : TokenLimits) (content : List Block)
    (originalSize : Nat) :
    content.length ≤ (truncateResponse cfg content originalSize).length
    ∧ (truncateResponse cfg content originalSize).length ≤ content.length + 1 := by
  rcases content with _ | ⟨first, rest⟩
  · simp only [truncateResponse]
    split
    · simp
    · split <;> simp
  · simp only [truncateResponse]
    split
    · exact ⟨le_rfl, Nat.le_succ _⟩
    · by_cases hty : first.type = "text"
      · rw [if_pos hty]
        split <;> simp [List.length_map]
      · rw [if_neg hty]
        split <;> simp [List.length_map]

/-- The size guard keeps the block structure. -/
theorem processResponse_length_bounds (cfg : TokenLimits) (content : List Block) :
    content.length ≤ (processResponse cfg content).length
    ∧ (processResponse cfg content).length ≤ content.length + 1 := by
  simp only [processResponse, checkResponseSize]
  split
  · exact truncateResponse_length_bounds cfg content _
  · exact ⟨le_rfl, Nat.le_succ _⟩

/-- C9: filtering, pagination and the size guard are total functions that
return well-formed results on every input: the filter output is a
subsequence of its input, the page slice is a subsequence of the filtered
list of at most `pageSize` items, an out-of-range page gives an empty slice
with `hasMore = false` instead of an error, and the size guard always
returns a block list (the input blocks, plus at most one banner block). -/
theorem claim9_total_pipeline {α : Type} (A : List Accessory) (F : FilterSpec)
    (items : List α) (page limit : Int) (maxDevicesPerPage : Nat)
    (cfg : TokenLimits) (content : List Block)
    (hmax : 1 ≤ maxDevicesPerPage) :
    (applyAccessoryFilters A F).Sublist A
    ∧ (paginate items page limit maxDevicesPerPage).items.Sublist items
    ∧ (paginate items page limit maxDevicesPerPage).items.length
        ≤ (paginate items page limit maxDevicesPerPage).pageSize.toNat
    ∧ (((paginate items page limit maxDevicesPerPage).totalPages : Int)
          < (paginate items page limit maxDevicesPerPage).pageNum →
        (paginate items page limit maxDevicesPerPage).items = []
        ∧ (paginate items page limit maxDevicesPerPage).hasMore = false)
    ∧ content.length ≤ (processResponse cfg content).length
    ∧ (processResponse cfg content).length ≤ content.length + 1 := by
  refine ⟨applyAccessoryFilters_sublist A F, ?_, ?_, ?_, ?_, ?_⟩
  · show (((items.drop _).take _)).Sublist items
    exact (List.take_sublist _ _).trans (List.drop_sublist _ _)
  · show (((items.drop _).take _)).length ≤ _
    rw [List.length_take]
    exact min_le_left _ _
  · exact paginate_beyond items page limit maxDevicesPerPage hmax
  · exact (processResponse_length_bounds cfg content).1
  · exact (processResponse_length_bounds cfg content).2

/-- Witness for C9 at concrete inputs (page 5 of a 3-item list, small
content). -/
theorem claim9_witness :
    (applyAccessoryFilters [airQualityAcc] {}).Sublist [airQualityAcc]
    ∧ (paginate [(1 : Nat), 2, 3] 5 2 20).items.Sublist [1, 2, 3]
    ∧ (paginate [(1 : Nat), 2, 3] 5 2 20).items.length
        ≤ (paginate [(1 : Nat), 2, 3] 5 2 20).pageSize.toNat
    ∧ (((paginate [(1 : Nat), 2, 3] 5 2 20).totalPages : Int)
          < (paginate [(1 : Nat), 2, 3] 5 2 20).pageNum →
        (paginate [(1 : Nat), 2, 3] 5 2 20).items = []
        ∧ (paginate [(1 : Nat), 2, 3] 5 2 20).hasMore = false)
    ∧ ([⟨"text", "hi"⟩] : List Block).length
        ≤ (processResponse exampleLimits [⟨"text", "hi"⟩]).length
    ∧ (processResponse exampleLimits [⟨"text", "hi"⟩]).length
        ≤ ([⟨"text", "hi"⟩] : List Block).length + 1 :=
  claim9_total_pipeline [airQualityAcc] {} [(1 : Nat), 2, 3] 5 2 20
    exampleLimits [⟨"text", "hi"⟩] (by decide)

/-- Witness for C1: pages of size 2 over the filtered two-accessory list
reassemble it exactly. -/
theorem claim1_witness :
    (List.range (paginate (applyAccessoryFilters [airQualityAcc, temperatureAcc] {})
        1 2 20).totalPages).flatMap
        (fun k => (paginate (applyAccessoryFilters [airQualityAcc, temperatureAcc] {})
            ((k : Int) + 1) 2 20).items)
      = applyAccessoryFilters [airQualityAcc, temperatureAcc] {} :=
  claim1_pagination_exhaustive [airQualityAcc, temperatureAcc] {} 2 20
    (by decide) (by decide)

/-- Witness for C3 at a 3-item list, page 2, limit 2, cap 20. -/
theorem claim3_witness :
    (paginate [(1 : Nat), 2, 3] 2 2 20).pageNum = max 1 2
    ∧ (paginate [(1 : Nat), 2, 3] 2 2 20).pageSize = min (20 : Int) (max 1 2)
    ∧ 1 ≤ (paginate [(1 : Nat), 2, 3] 2 2 20).pageSize
    ∧ (paginate [(1 : Nat), 2, 3] 2 2 20).pageSize ≤ (20 : Int)
    ∧ ((20 : Int) < 2 → (paginate [(1 : Nat), 2, 3] 2 2 20).pageSize = (20 : Int))
    ∧ ((paginate [(1 : Nat), 2, 3] 2 2 20).totalPages : Int)
        = ⌈(([(1 : Nat), 2, 3] : List Nat).length : ℚ)
            / (((paginate [(1 : Nat), 2, 3] 2 2 20).pageSize : Int) : ℚ)⌉
    ∧ (([(1 : Nat), 2, 3] : List Nat) = [] →
        (paginate [(1 : Nat), 2, 3] 2 2 20).totalPages = 0
        ∧ 1 ≤ (paginate [(1 : Nat), 2, 3] 2 2 20).pageNum
        ∧ (paginate [(1 : Nat), 2, 3] 2 2 20).items = [])
    ∧ ((paginate [(1 : Nat), 2, 3] 2 2 20).hasMore = true
        ↔ (paginate [(1 : Nat), 2, 3] 2 2 20).pageNum
            < ((paginate [(1 : Nat), 2, 3] 2 2 20).totalPages : Int))
    ∧ (((paginate [(1 : Nat), 2, 3] 2 2 20).totalPages : Int)
          < (paginate [(1 : Nat), 2, 3] 2 2 20).pageNum →
        (paginate [(1 : Nat), 2, 3] 2 2 20).items = []
        ∧ (paginate [(1 : Nat), 2, 3] 2 2 20).hasMore = false) :=
  claim3_pagination_arithmetic [(1 : Nat), 2, 3] 2 2 20 (by decide)

end Spruthub
